import Mathlib

set_option maxHeartbeats 1000000

/-!
Shallow embedding of `src/Newsfreqvolatility.py`, a Streamlit script that
computes a per-day count of fuzzy-duplicate news headlines and a daily
S&P 500 volatility series under a selectable model.

Modelling conventions:
* calendar dates are day ordinals (`Nat`);
* pandas Series become `List (Option ℝ)` (a `none` entry is a NaN cell) or,
  for the news counts, `List (Nat × Nat)` pairs of (date, count);
* rapidfuzz scores are exact rationals (`ℚ`) on the 0-100 scale;
* price arithmetic is over `ℝ`; raised Python exceptions become
  `Except PipelineError` results.
-/

/-- A headline title, as its sequence of characters. -/
abbrev Title := List Char

/-- One raw news record as consumed by `get_duplicate_news` (source lines
33-37); only the fields the pipeline reads (`title`, `published date`) are
modelled, the date already parsed to a day ordinal. -/
structure HeadlineRecord where
  title : Title
  pubDate : Nat
deriving DecidableEq, Repr

/-- The exceptions the script can raise while producing its two series:
`noData` is the `Exception("No news data found for given range.")` at source
line 31, `unknownModel` the `ValueError` at line 99, and `nameError` the
Python `NameError` raised by the `VIX` branch at line 96, whose callee
`calculate_vix` is defined nowhere in the program. -/
inductive PipelineError where
  | noData (msg : String)
  | unknownModel (msg : String)
  | nameError (missing : String)
deriving DecidableEq, Repr

/-- Indel (insertion/deletion) edit distance, fueled so that the recursion is
structural (every recursive call shrinks the combined length by at least one,
so a fuel of `a.length + b.length` is always sufficient and the `0` fallback
is unreachable). -/
def indelDistAux : Nat → List Char → List Char → Nat
  | _, [], ys => ys.length
  | _, x :: xs, [] => (x :: xs).length
  | 0, _, _ => 0
  | fuel + 1, x :: xs, y :: ys =>
      if x = y then indelDistAux fuel xs ys
      else 1 + min (indelDistAux fuel xs (y :: ys)) (indelDistAux fuel (x :: xs) ys)

/-- Indel (insertion/deletion) edit distance between two character lists;
this is the distance that rapidfuzz's `fuzz.ratio` normalizes. -/
def indelDist (a b : List Char) : Nat := indelDistAux (a.length + b.length) a b

/-- rapidfuzz `fuzz.ratio`: normalized indel similarity on the 0-100 scale,
modelled exactly in ℚ; two empty strings score 100. -/
def fuzzRatio (a b : Title) : ℚ :=
  if a.length + b.length = 0 then 100
  else 100 * (((a.length + b.length : Nat) : ℚ) - (indelDist a b : ℚ)) / ((a.length + b.length : Nat) : ℚ)

/-- Helper for whitespace tokenization (Python `str.split()` semantics used by
`token_sort_ratio`): accumulate the current token in reverse. -/
def splitWSAux : List Char → List Char → List Title
  | [], acc => if acc.isEmpty then [] else [acc.reverse]
  | c :: rest, acc =>
      if c.isWhitespace then
        if acc.isEmpty then splitWSAux rest [] else acc.reverse :: splitWSAux rest []
      else splitWSAux rest (c :: acc)

/-- Tokenize a title on whitespace, dropping empty tokens. -/
def splitWS (s : Title) : List Title := splitWSAux s []

/-- Lexicographic (code-point) comparison of tokens, as Python's `sorted`
orders strings. -/
def lexLe : List Char → List Char → Bool
  | [], _ => true
  | _ :: _, [] => false
  | x :: xs, y :: ys => if x = y then lexLe xs ys else decide (x < y)

/-- Insert a token into an already sorted token list. -/
def insertTok (t : Title) : List Title → List Title
  | [] => [t]
  | u :: rest => if lexLe t u then t :: u :: rest else u :: insertTok t rest

/-- Sort a token list alphabetically. -/
def sortToks : List Title → List Title
  | [] => []
  | t :: rest => insertTok t (sortToks rest)

/-- The token-sorted form of a title: split on whitespace, sort the tokens
alphabetically, rejoin with single spaces. -/
def tokenSort (s : Title) : Title := List.intercalate [' '] (sortToks (splitWS s))

/-- rapidfuzz `fuzz.token_sort_ratio` (source lines 16 and 46): the plain
ratio of the two token-sorted titles. -/
def token_sort_ratio (a b : Title) : ℚ := fuzzRatio (tokenSort a) (tokenSort b)

/-- The inner double loop of `get_duplicate_news` (source lines 42-51) on one
day's title list: for every pair i < j whose score meets the threshold, add 1
to the count and append the display entry that
`highlight_similar_titles([titles[i], titles[j]], threshold)` produces for the
pair (the HTML formatting is abstracted to the (title, title, score) triple). -/
def scanPairs (threshold : ℚ) : List Title → Nat × List (Title × Title × ℚ)
  | [] => (0, [])
  | t :: rest =>
      let tail := scanPairs threshold rest
      ((rest.countP fun u => decide (threshold ≤ token_sort_ratio t u)) + tail.1,
       ((rest.filter fun u => decide (threshold ≤ token_sort_ratio t u)).map
          fun u => (t, u, token_sort_ratio t u)) ++ tail.2)

/-- `highlight_similar_titles` (source lines 12-20): every pair i < j meeting
the threshold, with its score; formatting abstracted to the triple. -/
def highlight_similar_titles (titles : List Title) (threshold : ℚ) : List (Title × Title × ℚ) :=
  (scanPairs threshold titles).2

/-- Number of qualifying pairs for one day's titles (the day's `count` at
source line 51). -/
def dayMatchCount (threshold : ℚ) (titles : List Title) : Nat :=
  (scanPairs threshold titles).1

/-- The date-range filter of source line 35. -/
def inRange (start end_ : Nat) (r : HeadlineRecord) : Bool :=
  decide (start ≤ r.pubDate) && decide (r.pubDate ≤ end_)

/-- The titles published on day `d`, after the range filter (the groupby of
source line 37, which preserves within-group order). -/
def titlesOnDay (raw : List HeadlineRecord) (start end_ d : Nat) : List Title :=
  ((raw.filter (inRange start end_)).filter fun r => decide (r.pubDate = d)).map (·.title)

/-- `pd.date_range(start, end)` of source line 53: every calendar day from
`start` to `end_` inclusive; empty when `start > end_`. -/
def allDays (start end_ : Nat) : List Nat := List.range' start (end_ + 1 - start)

/-- `get_duplicate_news` (source lines 23-54), with the provider result
injected as `raw` (lines 24-29 perform the GNews fetch). An empty provider
result raises at line 31; otherwise the function returns the zero-filled
per-day series of line 54 (`duplicate_counts.get(day, 0)` equals the pair
count of that day's titles, which is 0 for a day with no titles) together
with the accumulated similar-title display list, days in ascending
(groupby) order. There is no check whatsoever on `start > end_`: in that
case `pd.date_range` is empty and an empty series is returned. -/
def get_duplicate_news (raw : List HeadlineRecord) (start end_ : Nat) (threshold : ℚ) :
    Except PipelineError (List (Nat × Nat) × List (Title × Title × ℚ)) :=
  if raw.isEmpty then Except.error (.noData "No news data found for given range.")
  else
    Except.ok
      ((allDays start end_).map fun d => (d, dayMatchCount threshold (titlesOnDay raw start end_ d)),
       (((allDays start end_).filter fun d => !(titlesOnDay raw start end_ d).isEmpty).map
          fun d => (scanPairs threshold (titlesOnDay raw start end_ d)).2).flatten)

/-- One daily price bar from the price provider (`yf.download`, source line
81); only the columns the volatility models read are modelled. -/
structure Bar where
  high : ℝ
  low : ℝ
  close : ℝ

/-- pandas mean of a window's values. -/
noncomputable def listMean (xs : List ℝ) : ℝ := xs.sum / (xs.length : ℝ)

/-- pandas sample standard deviation (ddof = 1) of a window's values. -/
noncomputable def sampleStd (xs : List ℝ) : ℝ :=
  Real.sqrt ((xs.map fun x => (x - listMean xs) ^ 2).sum / ((xs.length : ℝ) - 1))

/-- The trailing window of length `w` ending at index `i` (indices
`i+1-w` to `i`). -/
def trailingWin (w : Nat) (s : List α) (i : Nat) : List α :=
  (s.take (i + 1)).drop (i + 1 - w)

/-- pandas `Series.rolling(window=w)` followed by an aggregator `f`: at each
index, if at least `w` positions precede (inclusive) and every cell of the
trailing window is non-NaN, apply `f` to the window's values; otherwise NaN.
(Default `min_periods` equals the window length, so a single NaN inside the
window makes the result NaN.) -/
noncomputable def rollingApply (w : Nat) (f : List ℝ → ℝ) (s : List (Option ℝ)) : List (Option ℝ) :=
  (List.range s.length).map fun i =>
    if w ≤ i + 1 ∧ (trailingWin w s i).all Option.isSome
    then some (f ((trailingWin w s i).filterMap id))
    else none

/-- One cell of `Series.pct_change()`: NaN at index 0, then
`(x[i] - x[i-1]) / x[i-1]`. -/
noncomputable def pctCell (xs : List ℝ) (i : Nat) : Option ℝ :=
  if i = 0 then none else some ((xs.getD i 0 - xs.getD (i - 1) 0) / xs.getD (i - 1) 0)

/-- pandas `Series.pct_change()` on a NaN-free column. -/
noncomputable def pct_change (xs : List ℝ) : List (Option ℝ) :=
  (List.range xs.length).map (pctCell xs)

/-- One cell of `Series.shift()`: NaN at index 0, then the previous value. -/
def shiftCell (xs : List ℝ) (i : Nat) : Option ℝ :=
  if i = 0 then none else some (xs.getD (i - 1) 0)

/-- pandas `Series.shift()` on a NaN-free column. -/
def shift1 (xs : List ℝ) : List (Option ℝ) :=
  (List.range xs.length).map (shiftCell xs)

/-- Cellwise combination of two aligned pandas columns: NaN when either cell
is NaN. -/
def map2 (f : ℝ → ℝ → ℝ) (a b : List (Option ℝ)) : List (Option ℝ) :=
  (List.range (min a.length b.length)).map fun i =>
    match a.getD i none, b.getD i none with
    | some x, some y => some (f x y)
    | _, _ => none

/-- NaN-skipping max of two cells, as `DataFrame.max(axis=1)` combines
columns: NaN only when both cells are NaN. -/
def optMax2 : Option ℝ → Option ℝ → Option ℝ
  | none, y => y
  | some x, none => some x
  | some x, some y => some (max x y)

/-- Rowwise NaN-skipping maximum of three aligned columns
(`df[['H-L', 'H-C', 'L-C']].max(axis=1)`, source line 61). -/
def rowMax3 (a b c : List (Option ℝ)) : List (Option ℝ) :=
  (List.range a.length).map fun i =>
    optMax2 (a.getD i none) (optMax2 (b.getD i none) (c.getD i none))

/-- Column `H-L` (source line 58). -/
def hlCol (bars : List Bar) : List (Option ℝ) :=
  map2 (fun h l => h - l) ((bars.map Bar.high).map some) ((bars.map Bar.low).map some)

/-- Column `H-C` = `abs(High - Close.shift())` (source line 59). -/
def hcCol (bars : List Bar) : List (Option ℝ) :=
  map2 (fun h c => |h - c|) ((bars.map Bar.high).map some) (shift1 (bars.map Bar.close))

/-- Column `L-C` = `abs(Low - Close.shift())` (source line 60). -/
def lcCol (bars : List Bar) : List (Option ℝ) :=
  map2 (fun l c => |l - c|) ((bars.map Bar.low).map some) (shift1 (bars.map Bar.close))

/-- Column `TR` (source line 61): its row 0 cell falls back to `H-L`
because the rowwise max skips the NaNs of `H-C` and `L-C`. -/
def trCol (bars : List Bar) : List (Option ℝ) :=
  rowMax3 (hlCol bars) (hcCol bars) (lcCol bars)

/-- `calculate_atr` (source lines 57-63): rolling mean of the true range. -/
noncomputable def calculate_atr (bars : List Bar) (window : Nat) : List (Option ℝ) :=
  rollingApply window listMean (trCol bars)

/-- `calculate_hv` (source lines 66-68): rolling sample standard deviation of
daily returns, annualized by the square root of 252. -/
noncomputable def calculate_hv (close : List ℝ) (window : Nat) : List (Option ℝ) :=
  (rollingApply window sampleStd (pct_change close)).map (Option.map fun v => v * Real.sqrt 252)

/-- Column `Moving_Avg` (source line 72). -/
noncomputable def maCol (close : List ℝ) (window : Nat) : List (Option ℝ) :=
  rollingApply window listMean (close.map some)

/-- Column `Rolling_Std` (source line 73). -/
noncomputable def sdCol (close : List ℝ) (window : Nat) : List (Option ℝ) :=
  rollingApply window sampleStd (close.map some)

/-- Column `Upper_Band` (source line 74). -/
noncomputable def upperCol (close : List ℝ) (window : Nat) (multiplier : ℝ) : List (Option ℝ) :=
  map2 (fun m s => m + s * multiplier) (maCol close window) (sdCol close window)

/-- Column `Lower_Band` (source line 75). -/
noncomputable def lowerCol (close : List ℝ) (window : Nat) (multiplier : ℝ) : List (Option ℝ) :=
  map2 (fun m s => m - s * multiplier) (maCol close window) (sdCol close window)

/-- `calculate_bollinger_bands` (source lines 71-77): the band width
`Upper_Band - Lower_Band`, expressed as a percentage of the moving average
(the final `/ df['Moving_Avg'] * 100` of line 76). -/
noncomputable def calculate_bollinger_bands (close : List ℝ) (window : Nat) (multiplier : ℝ) :
    List (Option ℝ) :=
  map2 (fun d m => d / m * 100)
    (map2 (fun u l => u - l) (upperCol close window multiplier) (lowerCol close window multiplier))
    (maCol close window)

/-- `get_sp500_volatility` (source lines 80-101) with the provider result
injected as `bars` (line 81 performs the yfinance download; note the download
happens before the dispatch, and no branch checks for an empty result). The
`VIX` branch calls `calculate_vix`, a name defined nowhere in the program, so
selecting it raises a Python `NameError`; any other unrecognized tag reaches
the `else` and raises `ValueError(f"Unknown model type: ...")`. -/
noncomputable def get_sp500_volatility (bars : List Bar) (model_type : String) (window : Nat)
    (multiplier : ℝ) : Except PipelineError (List (Option ℝ)) :=
  let close := bars.map Bar.close
  if model_type = "Standard Deviation of Returns" then
    Except.ok (rollingApply window sampleStd (pct_change close))
  else if model_type = "Average True Range (ATR)" then
    Except.ok (calculate_atr bars window)
  else if model_type = "Historical Volatility (HV)" then
    Except.ok (calculate_hv close window)
  else if model_type = "Bollinger Bands" then
    Except.ok (calculate_bollinger_bands close window multiplier)
  else if model_type = "VIX" then
    Except.error (.nameError "calculate_vix")
  else
    Except.error (.unknownModel ("Unknown model type: " ++ model_type))

/-- The five tags offered by the model-selection menu (source line 149),
which are exactly the tags the dispatch of lines 83-96 recognizes. -/
def recognizedModels : List String :=
  ["Standard Deviation of Returns", "Average True Range (ATR)",
   "Historical Volatility (HV)", "Bollinger Bands", "VIX"]

/-- The recognized tags that actually produce a series (all but `VIX`). -/
def dispatchedModels : List String :=
  ["Standard Deviation of Returns", "Average True Range (ATR)",
   "Historical Volatility (HV)", "Bollinger Bands"]

/-- The volatility series a dispatched model yields (`Except.ok` payload). -/
noncomputable def volResult (bars : List Bar) (model_type : String) (window : Nat)
    (multiplier : ℝ) : List (Option ℝ) :=
  ((get_sp500_volatility bars model_type window multiplier).toOption).getD []

/-- First defined index of each dispatched model's series: the return-based
models (Standard Deviation of Returns, Historical Volatility) consume one row
for the prior close, so their first `window` cells are NaN; ATR (whose row-0
true range falls back to `High - Low`) and Bollinger Bands have `window - 1`
NaN cells. -/
def definedCutoff (model_type : String) (window : Nat) : Nat :=
  if model_type = "Standard Deviation of Returns" ∨ model_type = "Historical Volatility (HV)"
  then window else window - 1

/-- Modelled from the spec: the "SMA" volatility model, which appears in
other revisions of this repository but not in `src/`; per spec section 4.2 it
is the trailing annualized return standard deviation ("equivalent to
HistoricalVolatility"), i.e. the rolling sample standard deviation of the
daily returns with the annualization applied inside the window aggregator. -/
noncomputable def sma_volatility (close : List ℝ) (window : Nat) : List (Option ℝ) :=
  rollingApply window (fun returns => sampleStd returns * Real.sqrt 252) (pct_change close)

/-- The top-level flow around the two pipelines (source lines 157-177):
when `start > end` the script shows a warning and never invokes either
pipeline (modelled as `none`); otherwise, once the button is pressed, both
pipelines run and their results are combined (chart-type plumbing omitted). -/
noncomputable def app_run (raw : List HeadlineRecord) (bars : List Bar) (start end_ : Nat)
    (threshold : ℚ) (model_type : String) (window : Nat) (multiplier : ℝ) :
    Option (Except PipelineError ((List (Nat × Nat) × List (Title × Title × ℚ)) × List (Option ℝ))) :=
  if start > end_ then none
  else some (do
    let news ← get_duplicate_news raw start end_ threshold
    let vol ← get_sp500_volatility bars model_type window multiplier
    pure (news, vol))

/-! ### Access and definedness lemmas for the embedded pandas operations -/

theorem getD_range_map {β : Type} (f : Nat → β) (d : β) {n i : Nat} (hi : i < n) :
    ((List.range n).map f).getD i d = f i := by
  rw [List.getD_eq_getElem?_getD, List.getElem?_map, List.getElem?_range hi]
  rfl

theorem mapSome_getD (xs : List ℝ) {i : Nat} (hi : i < xs.length) :
    (xs.map some).getD i none = some (xs.get ⟨i, hi⟩) := by
  rw [List.getD_eq_getElem?_getD, List.getElem?_map, List.getElem?_eq_getElem hi]
  rfl

theorem trailingWin_length {α : Type} {w i : Nat} {s : List α} (h1 : w ≤ i + 1)
    (hi : i < s.length) : (trailingWin w s i).length = w := by
  simp only [trailingWin, List.length_drop, List.length_take]
  omega

theorem trailingWin_get {α : Type} (s : List α) (w i k : Nat)
    (hk : k < (trailingWin w s i).length) (hks : i + 1 - w + k < s.length) :
    (trailingWin w s i).get ⟨k, hk⟩ = s.get ⟨i + 1 - w + k, hks⟩ := by
  simp only [trailingWin, List.get_eq_getElem]
  rw [List.getElem_drop, List.getElem_take]

theorem trailingWin_subset {α : Type} {w i : Nat} {s : List α} {o : α}
    (ho : o ∈ trailingWin w s i) : o ∈ s :=
  List.mem_of_mem_take (List.mem_of_mem_drop ho)

theorem trailingWin_mapSome (xs : List ℝ) (w i : Nat) :
    trailingWin w (xs.map some) i = (trailingWin w xs i).map some := by
  simp [trailingWin, List.map_take, List.map_drop]

theorem filterMap_id_mapSome (xs : List ℝ) : (xs.map some).filterMap id = xs := by
  rw [List.filterMap_map]
  exact List.filterMap_some xs

theorem rollingApply_length (w : Nat) (f : List ℝ → ℝ) (s : List (Option ℝ)) :
    (rollingApply w f s).length = s.length := by
  simp [rollingApply]

theorem rollingApply_getD (w : Nat) (f : List ℝ → ℝ) (s : List (Option ℝ)) {i : Nat}
    (hi : i < s.length) :
    (rollingApply w f s).getD i none =
      if w ≤ i + 1 ∧ (trailingWin w s i).all Option.isSome
      then some (f ((trailingWin w s i).filterMap id))
      else none :=
  getD_range_map _ _ hi

theorem rollingApply_allSome_none_iff (w : Nat) (f : List ℝ → ℝ) {s : List (Option ℝ)}
    (hall : ∀ o ∈ s, o.isSome) {i : Nat} (hi : i < s.length) :
    ((rollingApply w f s).getD i none = none) ↔ i + 1 < w := by
  rw [rollingApply_getD w f s hi]
  by_cases h1 : w ≤ i + 1
  · have hwall : (trailingWin w s i).all Option.isSome = true :=
      List.all_eq_true.mpr fun o ho => hall o (trailingWin_subset ho)
    rw [if_pos ⟨h1, hwall⟩]
    simp
    omega
  · rw [if_neg (by tauto)]
    simp
    omega

theorem rollingApply_mapSome_getD (w : Nat) (f : List ℝ → ℝ) (xs : List ℝ) {i : Nat}
    (h1 : w ≤ i + 1) (hi : i < xs.length) :
    (rollingApply w f (xs.map some)).getD i none = some (f (trailingWin w xs i)) := by
  rw [rollingApply_getD w f _ (by simpa using hi)]
  have hwall : (trailingWin w (xs.map some) i).all Option.isSome = true := by
    rw [trailingWin_mapSome]
    simp
  rw [if_pos ⟨h1, hwall⟩, trailingWin_mapSome, filterMap_id_mapSome]

theorem pct_change_length (xs : List ℝ) : (pct_change xs).length = xs.length := by
  simp [pct_change]

theorem pct_change_get (xs : List ℝ) (j : Nat) (h : j < (pct_change xs).length) :
    (pct_change xs).get ⟨j, h⟩ = pctCell xs j := by
  simp [pct_change, List.get_eq_getElem]

theorem rollingApply_pct_none_iff (w : Nat) (f : List ℝ → ℝ) (xs : List ℝ) {i : Nat}
    (hw : 1 ≤ w) (hi : i < xs.length) :
    ((rollingApply w f (pct_change xs)).getD i none = none) ↔ i < w := by
  have hlen : (pct_change xs).length = xs.length := pct_change_length xs
  have hi' : i < (pct_change xs).length := by omega
  rw [rollingApply_getD w f _ hi']
  by_cases hcase : w ≤ i
  · have h1 : w ≤ i + 1 := by omega
    have hwall : (trailingWin w (pct_change xs) i).all Option.isSome = true := by
      rw [List.all_eq_true]
      intro o ho
      obtain ⟨k, hk, rfl⟩ := List.mem_iff_getElem.mp ho
      have hks : i + 1 - w + k < (pct_change xs).length := by
        have := trailingWin_length h1 hi'
        omega
      have hget : (trailingWin w (pct_change xs) i).get ⟨k, hk⟩ =
          (pct_change xs).get ⟨i + 1 - w + k, hks⟩ :=
        trailingWin_get _ w i k hk hks
      rw [List.get_eq_getElem] at hget
      rw [hget, pct_change_get]
      have : i + 1 - w + k ≠ 0 := by omega
      simp [pctCell, this]
    rw [if_pos ⟨h1, hwall⟩]
    simp
    omega
  · by_cases h1 : w ≤ i + 1
    · have hlen0 : 0 < (trailingWin w (pct_change xs) i).length := by
        rw [trailingWin_length h1 hi']
        omega
      have h0idx : i + 1 - w + 0 < (pct_change xs).length := by omega
      have h0 : (trailingWin w (pct_change xs) i).get ⟨0, hlen0⟩ = none := by
        rw [trailingWin_get _ w i 0 hlen0 h0idx, pct_change_get]
        have : i + 1 - w = 0 := by omega
        simp [pctCell, this]
      have hnall : ¬ ((trailingWin w (pct_change xs) i).all Option.isSome = true) := by
        intro hall
        have := List.all_eq_true.mp hall _ (List.get_mem _ 0 hlen0)
        rw [h0] at this
        simp at this
      rw [if_neg (by tauto)]
      simp
      omega
    · rw [if_neg (by tauto)]
      simp
      omega

theorem map2_length (f : ℝ → ℝ → ℝ) (a b : List (Option ℝ)) :
    (map2 f a b).length = min a.length b.length := by
  simp [map2]

theorem map2_getD (f : ℝ → ℝ → ℝ) (a b : List (Option ℝ)) {i : Nat}
    (hi : i < min a.length b.length) :
    (map2 f a b).getD i none =
      match a.getD i none, b.getD i none with
      | some x, some y => some (f x y)
      | _, _ => none :=
  getD_range_map _ _ hi

theorem shift1_length (xs : List ℝ) : (shift1 xs).length = xs.length := by
  simp [shift1]

theorem shift1_getD (xs : List ℝ) {i : Nat} (hi : i < xs.length) :
    (shift1 xs).getD i none = shiftCell xs i :=
  getD_range_map _ _ hi

theorem optMax2_isSome_left {p q : Option ℝ} (hp : p.isSome) : (optMax2 p q).isSome := by
  cases p <;> cases q <;> simp_all [optMax2]

theorem hlCol_length (bars : List Bar) : (hlCol bars).length = bars.length := by
  simp [hlCol, map2_length]

theorem hlCol_getD_isSome (bars : List Bar) {i : Nat} (hi : i < bars.length) :
    ((hlCol bars).getD i none).isSome := by
  have ha := mapSome_getD (bars.map Bar.high) (i := i) (by simpa using hi)
  have hb := mapSome_getD (bars.map Bar.low) (i := i) (by simpa using hi)
  rw [hlCol, map2_getD _ _ _ (by simpa using hi), ha, hb]
  rfl

theorem trCol_length (bars : List Bar) : (trCol bars).length = bars.length := by
  simp [trCol, rowMax3, hlCol, map2]

theorem trCol_getD_isSome (bars : List Bar) {i : Nat} (hi : i < bars.length) :
    ((trCol bars).getD i none).isSome := by
  rw [trCol, rowMax3, getD_range_map _ _ (show i < (hlCol bars).length by
    rw [hlCol_length]; exact hi)]
  exact optMax2_isSome_left (hlCol_getD_isSome bars hi)

theorem forall_mem_isSome_of_getD {l : List (Option ℝ)}
    (h : ∀ k, k < l.length → ((l.getD k none).isSome)) : ∀ o ∈ l, o.isSome := by
  intro o ho
  obtain ⟨k, hk, rfl⟩ := List.mem_iff_getElem.mp ho
  have := h k hk
  rwa [List.getD_eq_getElem _ _ hk] at this

theorem calculate_atr_length (bars : List Bar) (w : Nat) :
    (calculate_atr bars w).length = bars.length := by
  rw [calculate_atr, rollingApply_length, trCol_length]

theorem calculate_atr_none_iff (bars : List Bar) (w : Nat) {i : Nat} (hi : i < bars.length) :
    ((calculate_atr bars w).getD i none = none) ↔ i + 1 < w := by
  rw [calculate_atr]
  refine rollingApply_allSome_none_iff w listMean ?_ (by rw [trCol_length]; exact hi)
  refine forall_mem_isSome_of_getD fun k hk => ?_
  exact trCol_getD_isSome bars (by rw [trCol_length] at hk; exact hk)

theorem calculate_hv_length (close : List ℝ) (w : Nat) :
    (calculate_hv close w).length = close.length := by
  rw [calculate_hv, List.length_map, rollingApply_length, pct_change_length]

theorem map_optionMap_getD (g : ℝ → ℝ) (l : List (Option ℝ)) {i : Nat} (hi : i < l.length) :
    (l.map (Option.map g)).getD i none = Option.map g (l.getD i none) := by
  rw [List.getD_eq_getElem?_getD, List.getElem?_map, List.getElem?_eq_getElem hi,
      List.getD_eq_getElem _ _ hi]
  rfl

theorem calculate_hv_none_iff (close : List ℝ) (w : Nat) {i : Nat} (hw : 1 ≤ w)
    (hi : i < close.length) :
    ((calculate_hv close w).getD i none = none) ↔ i < w := by
  rw [calculate_hv, map_optionMap_getD _ _ (by rw [rollingApply_length, pct_change_length]; exact hi)]
  rw [Option.map_eq_none']
  exact rollingApply_pct_none_iff w sampleStd close hw hi

theorem maCol_length (close : List ℝ) (w : Nat) : (maCol close w).length = close.length := by
  simp [maCol, rollingApply_length]

theorem sdCol_length (close : List ℝ) (w : Nat) : (sdCol close w).length = close.length := by
  simp [sdCol, rollingApply_length]

theorem maCol_none_iff (close : List ℝ) (w : Nat) {i : Nat} (hi : i < close.length) :
    ((maCol close w).getD i none = none) ↔ i + 1 < w := by
  rw [maCol]
  exact rollingApply_allSome_none_iff w listMean (by simp) (by simpa using hi)

theorem bollinger_length (close : List ℝ) (w : Nat) (mult : ℝ) :
    (calculate_bollinger_bands close w mult).length = close.length := by
  simp [calculate_bollinger_bands, upperCol, lowerCol, map2_length, maCol_length, sdCol_length]

theorem bollinger_getD_defined (close : List ℝ) (w : Nat) (mult : ℝ) {i : Nat}
    (h1 : w ≤ i + 1) (hi : i < close.length) :
    (calculate_bollinger_bands close w mult).getD i none =
      some ((listMean (trailingWin w close i) + sampleStd (trailingWin w close i) * mult -
             (listMean (trailingWin w close i) - sampleStd (trailingWin w close i) * mult)) /
            listMean (trailingWin w close i) * 100) := by
  have hma : (maCol close w).getD i none = some (listMean (trailingWin w close i)) :=
    rollingApply_mapSome_getD w listMean close h1 hi
  have hsd : (sdCol close w).getD i none = some (sampleStd (trailingWin w close i)) :=
    rollingApply_mapSome_getD w sampleStd close h1 hi
  have hup : (upperCol close w mult).getD i none =
      some (listMean (trailingWin w close i) + sampleStd (trailingWin w close i) * mult) := by
    rw [upperCol, map2_getD _ _ _ (by rw [maCol_length, sdCol_length]; simpa using hi), hma, hsd]
  have hlo : (lowerCol close w mult).getD i none =
      some (listMean (trailingWin w close i) - sampleStd (trailingWin w close i) * mult) := by
    rw [lowerCol, map2_getD _ _ _ (by rw [maCol_length, sdCol_length]; simpa using hi), hma, hsd]
  have hdf : (map2 (fun u l => u - l) (upperCol close w mult) (lowerCol close w mult)).getD i none
      = some (listMean (trailingWin w close i) + sampleStd (trailingWin w close i) * mult -
              (listMean (trailingWin w close i) - sampleStd (trailingWin w close i) * mult)) := by
    rw [map2_getD _ _ _ (by rw [upperCol, lowerCol, map2_length, map2_length,
      maCol_length, sdCol_length]; simpa using hi), hup, hlo]
  rw [calculate_bollinger_bands, map2_getD _ _ _ (by
    simp [map2_length, upperCol, lowerCol, maCol_length, sdCol_length]; omega), hdf, hma]

theorem bollinger_getD_none (close : List ℝ) (w : Nat) (mult : ℝ) {i : Nat}
    (h1 : i + 1 < w) (hi : i < close.length) :
    (calculate_bollinger_bands close w mult).getD i none = none := by
  have hma : (maCol close w).getD i none = none := (maCol_none_iff close w hi).mpr h1
  rw [calculate_bollinger_bands, map2_getD _ _ _ (by
    simp [map2_length, upperCol, lowerCol, maCol_length, sdCol_length]; omega), hma]
  cases (map2 (fun u l => u - l) (upperCol close w mult) (lowerCol close w mult)).getD i none <;> rfl

/-! ### Fuzzy-score lemmas -/

theorem indelDistAux_self (fuel : Nat) (s : List Char) (h : s.length ≤ fuel) :
    indelDistAux fuel s s = 0 := by
  induction s generalizing fuel with
  | nil => cases fuel <;> rfl
  | cons x xs ih =>
      cases fuel with
      | zero => simp at h
      | succ f =>
          simp only [indelDistAux, if_pos rfl]
          exact ih f (by simpa using h)

theorem indelDist_self (s : List Char) : indelDist s s = 0 :=
  indelDistAux_self _ s (by omega)

theorem fuzzRatio_self (s : Title) : fuzzRatio s s = 100 := by
  by_cases h : s.length + s.length = 0
  · simp [fuzzRatio, h]
  · have hne : ((s.length + s.length : Nat) : ℚ) ≠ 0 := by exact_mod_cast h
    rw [fuzzRatio, if_neg h, indelDist_self, Nat.cast_zero, sub_zero, mul_div_assoc,
      div_self hne, mul_one]

/-! ### Claim C6 -/

/-- C6: for a fixed day's title list and thresholds 0 ≤ t1 < t2 ≤ 100, the
duplicate count computed under t2 is at most the count computed under t1:
the per-day match count of the inner loop of `get_duplicate_news` is
monotonically non-increasing in the threshold. -/
theorem match_count_antitone_in_threshold (titles : List Title) (t1 t2 : ℚ)
    (_h0 : 0 ≤ t1) (h12 : t1 < t2) (_h100 : t2 ≤ 100) :
    dayMatchCount t2 titles ≤ dayMatchCount t1 titles := by
  induction titles with
  | nil => simp [dayMatchCount, scanPairs]
  | cons t rest ih =>
      simp only [dayMatchCount, scanPairs] at ih ⊢
      have hc : (rest.countP fun u => decide (t2 ≤ token_sort_ratio t u)) ≤
          (rest.countP fun u => decide (t1 ≤ token_sort_ratio t u)) := by
        refine List.countP_mono_left fun u _ hu => ?_
        simp only [decide_eq_true_eq] at hu ⊢
        exact le_trans (le_of_lt h12) hu
      omega

/-- Witness for C6 at a concrete day: three titles, thresholds 30 and 100. -/
theorem match_count_antitone_in_threshold_witness :
    (0 : ℚ) ≤ 30 ∧ (30 : ℚ) < 100 ∧ (100 : ℚ) ≤ 100 ∧
    dayMatchCount 100 [['a'], ['a'], ['b']] ≤ dayMatchCount 30 [['a'], ['a'], ['b']] :=
  ⟨by norm_num, by norm_num, by norm_num,
   match_count_antitone_in_threshold [['a'], ['a'], ['b']] 30 100
     (by norm_num) (by norm_num) (by norm_num)⟩

/-! ### Claim C7 -/

/-- C7: any two titles whose token-sorted forms are character-for-character
identical score exactly 100 under `token_sort_ratio`, and therefore count as
a match for every threshold at most 100. -/
theorem token_sorted_equal_full_score (a b : Title) (h : tokenSort a = tokenSort b) :
    token_sort_ratio a b = 100 ∧ ∀ t : ℚ, t ≤ 100 → t ≤ token_sort_ratio a b := by
  have hr : token_sort_ratio a b = 100 := by
    rw [token_sort_ratio, h, fuzzRatio_self]
  exact ⟨hr, fun t ht => by rw [hr]; exact ht⟩

/-- Witness for C7 on the word-swapped pair "b a" and "a b". -/
theorem token_sorted_equal_full_score_witness :
    tokenSort ['b', ' ', 'a'] = tokenSort ['a', ' ', 'b'] ∧
    token_sort_ratio ['b', ' ', 'a'] ['a', ' ', 'b'] = 100 ∧
    (35 : ℚ) ≤ token_sort_ratio ['b', ' ', 'a'] ['a', ' ', 'b'] :=
  ⟨by decide, (token_sorted_equal_full_score _ _ (by decide)).1,
   (token_sorted_equal_full_score _ _ (by decide)).2 35 (by norm_num)⟩

/-! ### Claim C1 -/

/-- C1 counterexample: an empty price-provider result does not make
`get_sp500_volatility` fail with a no-data error; the function performs no
empty-data check and silently returns an empty volatility series. -/
theorem empty_prices_silently_empty_cex :
    get_sp500_volatility [] "Standard Deviation of Returns" 20 2 = Except.ok [] := rfl

/-- C1 (amended): on an empty news-provider result `get_duplicate_news`
fails with the no-data error of source line 31, but `get_sp500_volatility`
performs no empty-data check: on an empty price-provider result every
dispatched model returns a silently empty series instead of an error. -/
theorem empty_provider_amended (start end_ : Nat) (threshold : ℚ) (m : String) (w : Nat)
    (mult : ℝ) (hm : m ∈ dispatchedModels) :
    get_duplicate_news [] start end_ threshold =
      Except.error (.noData "No news data found for given range.") ∧
    get_sp500_volatility [] m w mult = Except.ok [] := by
  refine ⟨rfl, ?_⟩
  fin_cases hm <;> rfl

/-- Witness for C1 (amended) at concrete arguments. -/
theorem empty_provider_amended_witness :
    get_duplicate_news [] 0 5 35 =
      Except.error (.noData "No news data found for given range.") ∧
    get_sp500_volatility [] "Bollinger Bands" 20 2 = Except.ok [] :=
  empty_provider_amended 0 5 35 "Bollinger Bands" 20 2 (by decide)

/-! ### Claim C2 -/

/-- C2 counterexample: called directly with start 5 > end 3 and a non-empty
provider result, `get_duplicate_news` does not fail with an invalid-range
error (no such error exists anywhere in the program); it returns an empty
series. -/
theorem range_inverted_no_error_cex :
    get_duplicate_news [⟨['a'], 3⟩] 5 3 35 = Except.ok ([], []) := rfl

/-- C2 (amended): an inverted range is rejected by the user-interface guard
of source lines 157-158, which shows a warning and never invokes either
pipeline (so no provider fetch happens); the pipeline functions themselves
raise no invalid-range error, and `get_duplicate_news` called directly on a
non-empty provider result with start > end returns an empty series. -/
theorem range_inverted_ui_guard (raw : List HeadlineRecord) (bars : List Bar)
    (start end_ : Nat) (threshold : ℚ) (m : String) (w : Nat) (mult : ℝ)
    (h : end_ < start) :
    app_run raw bars start end_ threshold m w mult = none ∧
    (raw.isEmpty = false → get_duplicate_news raw start end_ threshold = Except.ok ([], [])) := by
  constructor
  · rw [app_run, if_pos h]
  · intro hraw
    have hdays : allDays start end_ = [] := by
      rw [allDays, show end_ + 1 - start = 0 by omega]
      rfl
    rw [get_duplicate_news, if_neg (by simp [hraw]), hdays]
    rfl

/-- Witness for C2 (amended) with start 5, end 3. -/
theorem range_inverted_ui_guard_witness :
    app_run [⟨['a'], 3⟩] [] 5 3 35 "VIX" 20 2 = none ∧
    (([(⟨['a'], 3⟩ : HeadlineRecord)].isEmpty = false) →
      get_duplicate_news [⟨['a'], 3⟩] 5 3 35 = Except.ok ([], [])) :=
  range_inverted_ui_guard [⟨['a'], 3⟩] [] 5 3 35 "VIX" 20 2 (by omega)

/-! ### Claim C3 -/

/-- C3: for every valid range start ≤ end and every record supply and
threshold for which the detector succeeds, the returned series has exactly
(end − start) + 1 entries, one per calendar date of the range with each date
present exactly once; every entry's count is the pair count of that day's
titles, and a date with no records at all carries count 0 (so start = end
yields exactly one entry). -/
theorem duplicate_series_calendar_complete (raw : List HeadlineRecord) (start end_ : Nat)
    (threshold : ℚ) (hse : start ≤ end_) (series : List (Nat × Nat))
    (disp : List (Title × Title × ℚ))
    (hok : get_duplicate_news raw start end_ threshold = Except.ok (series, disp)) :
    series.length = end_ - start + 1 ∧
    series.map Prod.fst = allDays start end_ ∧
    (series.map Prod.fst).Nodup ∧
    (∀ d, d ∈ series.map Prod.fst ↔ start ≤ d ∧ d ≤ end_) ∧
    (∀ p ∈ series, p.2 = dayMatchCount threshold (titlesOnDay raw start end_ p.1)) ∧
    (∀ p ∈ series, (∀ r ∈ raw, r.pubDate ≠ p.1) → p.2 = 0) := by
  by_cases hraw : raw.isEmpty
  · rw [get_duplicate_news, if_pos hraw] at hok
    exact absurd hok (by simp)
  · rw [get_duplicate_news, if_neg hraw] at hok
    have hser : series =
        (allDays start end_).map
          (fun d => (d, dayMatchCount threshold (titlesOnDay raw start end_ d))) := by
      have := hok
      simp only [Except.ok.injEq, Prod.mk.injEq] at this
      exact this.1.symm
    subst hser
    have hfst : (((allDays start end_).map
        (fun d => (d, dayMatchCount threshold (titlesOnDay raw start end_ d)))).map Prod.fst)
        = allDays start end_ := by
      rw [List.map_map]
      exact List.map_id _
    refine ⟨?_, hfst, ?_, ?_, ?_, ?_⟩
    · simp only [List.length_map, allDays, List.length_range']
      omega
    · rw [hfst, allDays]
      exact List.nodup_range' _ _
    · intro d
      rw [hfst, allDays, List.mem_range'_1]
      omega
    · intro p hp
      obtain ⟨d, hd, rfl⟩ := List.mem_map.mp hp
      rfl
    · intro p hp hnone
      obtain ⟨d, hd, rfl⟩ := List.mem_map.mp hp
      have hnil : titlesOnDay raw start end_ d = [] := by
        rw [titlesOnDay]
        have hfe : (raw.filter (inRange start end_)).filter
            (fun r => decide (r.pubDate = d)) = [] := by
          rw [List.filter_eq_nil_iff]
          intro r hr
          simp [hnone r (List.mem_of_mem_filter hr)]
        rw [hfe]
        rfl
      rw [hnil]
      rfl

/-- Witness for C3 on two identical same-day titles over the 3-day range
2..4: the series is [(2,0), (3,1), (4,0)]. -/
theorem duplicate_series_calendar_complete_witness :
    ([((2 : Nat), (0 : Nat)), (3, 1), (4, 0)]).length = 4 - 2 + 1 ∧
    ([((2 : Nat), (0 : Nat)), (3, 1), (4, 0)]).map Prod.fst = allDays 2 4 ∧
    (([((2 : Nat), (0 : Nat)), (3, 1), (4, 0)]).map Prod.fst).Nodup ∧
    (∀ d, d ∈ ([((2 : Nat), (0 : Nat)), (3, 1), (4, 0)]).map Prod.fst ↔ 2 ≤ d ∧ d ≤ 4) ∧
    (∀ p ∈ [((2 : Nat), (0 : Nat)), (3, 1), (4, 0)],
      p.2 = dayMatchCount 35 (titlesOnDay [⟨['a'], 3⟩, ⟨['a'], 3⟩] 2 4 p.1)) ∧
    (∀ p ∈ [((2 : Nat), (0 : Nat)), (3, 1), (4, 0)],
      (∀ r ∈ [(⟨['a'], 3⟩ : HeadlineRecord), ⟨['a'], 3⟩], r.pubDate ≠ p.1) → p.2 = 0) :=
  duplicate_series_calendar_complete [⟨['a'], 3⟩, ⟨['a'], 3⟩] 2 4 35 (by omega)
    [((2 : Nat), (0 : Nat)), (3, 1), (4, 0)] [(['a'], ['a'], 100)] (by
      have hscore : token_sort_ratio ['a'] ['a'] = 100 := by
        rw [token_sort_ratio, fuzzRatio_self]
      have hdays : allDays 2 4 = [2, 3, 4] := rfl
      have h2 : titlesOnDay [⟨['a'], 3⟩, ⟨['a'], 3⟩] 2 4 2 = [] := rfl
      have h3 : titlesOnDay [⟨['a'], 3⟩, ⟨['a'], 3⟩] 2 4 3 = [['a'], ['a']] := rfl
      have h4 : titlesOnDay [⟨['a'], 3⟩, ⟨['a'], 3⟩] 2 4 4 = [] := rfl
      simp only [get_duplicate_news, hdays, List.isEmpty_cons, Bool.false_eq_true,
        if_false, List.map_cons, List.map_nil, List.filter_cons, List.filter_nil,
        h2, h3, h4, dayMatchCount, scanPairs, List.countP_cons, List.countP_nil,
        List.filter, hscore, List.isEmpty_nil, List.isEmpty_cons]
      norm_num [List.countP_cons, List.countP_nil, hscore, scanPairs, h3,
        List.filter_cons, inRange, titlesOnDay, List.map_cons])

/-! ### Claim C4 -/

/-- C4: any model tag outside the recognized menu makes
`get_sp500_volatility` fail with the unknown-model error (the `ValueError`
of source line 99) — no series is computed and no recognized model is
substituted for the request. -/
theorem unknown_model_rejected (bars : List Bar) (m : String) (w : Nat) (mult : ℝ)
    (hm : m ∉ recognizedModels) :
    get_sp500_volatility bars m w mult =
      Except.error (.unknownModel ("Unknown model type: " ++ m)) := by
  simp only [recognizedModels, List.mem_cons, List.not_mem_nil, or_false, not_or] at hm
  obtain ⟨h1, h2, h3, h4, h5⟩ := hm
  simp only [get_sp500_volatility, if_neg h1, if_neg h2, if_neg h3, if_neg h4, if_neg h5]

/-- Witness for C4 with the unrecognized tag GARCH. -/
theorem unknown_model_rejected_witness :
    ("GARCH" ∉ recognizedModels) ∧
    get_sp500_volatility [] "GARCH" 20 2 =
      Except.error (.unknownModel ("Unknown model type: " ++ "GARCH")) :=
  ⟨by decide, unknown_model_rejected [] "GARCH" 20 2 (by decide)⟩

/-! ### Claim C5 -/

/-- C5: the spec-modelled SMA volatility model (absent from `src/`, present
in other revisions of the repository) produces, for every bar history and
window, exactly the series that the Historical Volatility selector
dispatches to: both are the trailing annualized return standard deviation. -/
theorem sma_matches_historical_volatility (bars : List Bar) (w : Nat) (mult : ℝ) :
    get_sp500_volatility bars "Historical Volatility (HV)" w mult =
      Except.ok (sma_volatility (bars.map Bar.close) w) := by
  have hdis : get_sp500_volatility bars "Historical Volatility (HV)" w mult =
      Except.ok (calculate_hv (bars.map Bar.close) w) := rfl
  rw [hdis]
  congr 1
  rw [calculate_hv, sma_volatility, rollingApply, rollingApply, List.map_map]
  refine List.map_congr_left fun i _ => ?_
  simp only [Function.comp]
  split
  · rfl
  · rfl

/-! ### Claim C8 -/

/-- C8: for every dispatched volatility model, positive window, and bar
history of non-zero prices, the produced series has one cell per bar; a cell
is NaN (undefined) exactly when its index lies before the model's warm-up
cutoff — the first `window` cells for the return-based models (Standard
Deviation of Returns, Historical Volatility, which consume one row for the
prior close) and the first `window − 1` cells for ATR and Bollinger Bands —
and every cell from the cutoff onward holds a value (in this real-valued
embedding every defined cell is a finite real; float NaN/infinity cannot
arise). -/
theorem volatility_defined_after_warmup (bars : List Bar) (m : String) (w : Nat) (mult : ℝ)
    (hm : m ∈ dispatchedModels) (hw : 1 ≤ w) (_hz : ∀ b ∈ bars, b.close ≠ 0) :
    (volResult bars m w mult).length = bars.length ∧
    ∀ i, i < bars.length →
      ((volResult bars m w mult).getD i none = none ↔ i < definedCutoff m w) := by
  have hclen : (bars.map Bar.close).length = bars.length := List.length_map _ _
  fin_cases hm
  · -- Standard Deviation of Returns
    have hvr : volResult bars "Standard Deviation of Returns" w mult =
        rollingApply w sampleStd (pct_change (bars.map Bar.close)) := rfl
    have hcut : definedCutoff "Standard Deviation of Returns" w = w := rfl
    rw [hvr, hcut]
    refine ⟨by rw [rollingApply_length, pct_change_length, hclen], fun i hi => ?_⟩
    exact rollingApply_pct_none_iff w sampleStd _ hw (by omega)
  · -- Average True Range (ATR)
    have hvr : volResult bars "Average True Range (ATR)" w mult = calculate_atr bars w := rfl
    have hcut : definedCutoff "Average True Range (ATR)" w = w - 1 := rfl
    rw [hvr, hcut]
    refine ⟨calculate_atr_length bars w, fun i hi => ?_⟩
    rw [calculate_atr_none_iff bars w hi]
    omega
  · -- Historical Volatility (HV)
    have hvr : volResult bars "Historical Volatility (HV)" w mult =
        calculate_hv (bars.map Bar.close) w := rfl
    have hcut : definedCutoff "Historical Volatility (HV)" w = w := rfl
    rw [hvr, hcut]
    refine ⟨by rw [calculate_hv_length, hclen], fun i hi => ?_⟩
    exact calculate_hv_none_iff _ w hw (by omega)
  · -- Bollinger Bands
    have hvr : volResult bars "Bollinger Bands" w mult =
        calculate_bollinger_bands (bars.map Bar.close) w mult := rfl
    have hcut : definedCutoff "Bollinger Bands" w = w - 1 := rfl
    rw [hvr, hcut]
    refine ⟨by rw [bollinger_length, hclen], fun i hi => ?_⟩
    by_cases hc : i + 1 < w
    · rw [bollinger_getD_none _ _ _ hc (by omega)]
      constructor
      · intro _
        omega
      · intro _
        rfl
    · rw [bollinger_getD_defined _ _ _ (by omega) (by omega)]
      constructor
      · intro hcontra
        exact absurd hcontra (by simp)
      · intro hlt
        exact absurd hlt (by omega)

/-- Witness for C8: ATR over three bars with window 2 — cell 0 is NaN, cell
2 is defined. -/
theorem volatility_defined_after_warmup_witness :
    ("Average True Range (ATR)" ∈ dispatchedModels) ∧ 1 ≤ 2 ∧
    (volResult [⟨2, 1, 1⟩, ⟨3, 1, 2⟩, ⟨4, 1, 3⟩] "Average True Range (ATR)" 2 2).length = 3 ∧
    ((volResult [⟨2, 1, 1⟩, ⟨3, 1, 2⟩, ⟨4, 1, 3⟩] "Average True Range (ATR)" 2 2).getD 0 none
      = none ↔ 0 < definedCutoff "Average True Range (ATR)" 2) ∧
    ((volResult [⟨2, 1, 1⟩, ⟨3, 1, 2⟩, ⟨4, 1, 3⟩] "Average True Range (ATR)" 2 2).getD 2 none
      = none ↔ 2 < definedCutoff "Average True Range (ATR)" 2) := by
  have hz : ∀ b ∈ [(⟨2, 1, 1⟩ : Bar), ⟨3, 1, 2⟩, ⟨4, 1, 3⟩], b.close ≠ 0 := by
    intro b hb
    fin_cases hb <;> norm_num
  have h := volatility_defined_after_warmup [⟨2, 1, 1⟩, ⟨3, 1, 2⟩, ⟨4, 1, 3⟩]
    "Average True Range (ATR)" 2 2 (by decide) (by norm_num) hz
  exact ⟨by decide, by norm_num, h.1, h.2 0 (by norm_num), h.2 2 (by norm_num)⟩

/-! ### Claim C9 -/

/-- C9 counterexample: with closes [0, 1, 2], window 3, multiplier 1, the
Bollinger cell at index 2 is 200 (the band width as a percentage of the
moving average), not the plain band width 2 × multiplier × rolling standard
deviation, which is 2 here. -/
theorem bollinger_width_cex :
    (calculate_bollinger_bands [0, 1, 2] 3 1).getD 2 none ≠
      some (2 * 1 * sampleStd (trailingWin 3 [0, 1, 2] 2)) := by
  have htw : trailingWin 3 [(0 : ℝ), 1, 2] 2 = [0, 1, 2] := rfl
  have hmean : listMean [(0 : ℝ), 1, 2] = 1 := by
    rw [listMean]
    norm_num
  have hstd : sampleStd [(0 : ℝ), 1, 2] = 1 := by
    rw [sampleStd, hmean]
    norm_num [Real.sqrt_eq_one]
  rw [bollinger_getD_defined [0, 1, 2] 3 1 (by norm_num) (by norm_num), htw, hstd, hmean]
  simp only [ne_eq, Option.some.injEq]
  norm_num

/-- C9 (amended): at every defined index the Bollinger volatility equals the
band width 2 × multiplier × rolling standard deviation divided by the moving
average and multiplied by 100 — the band width expressed as a percentage of
the moving average, per source line 76. -/
theorem bollinger_percent_width (close : List ℝ) (w : Nat) (mult : ℝ) (i : Nat)
    (h1 : w ≤ i + 1) (hi : i < close.length) :
    (calculate_bollinger_bands close w mult).getD i none =
      some (2 * mult * sampleStd (trailingWin w close i) /
            listMean (trailingWin w close i) * 100) := by
  rw [bollinger_getD_defined close w mult h1 hi]
  congr 1
  ring

/-- Witness for C9 (amended) at closes [0, 1, 2], window 3, multiplier 1,
index 2. -/
theorem bollinger_percent_width_witness :
    (3 ≤ 2 + 1) ∧ (2 < 3) ∧
    (calculate_bollinger_bands [0, 1, 2] 3 1).getD 2 none =
      some (2 * 1 * sampleStd (trailingWin 3 [0, 1, 2] 2) /
            listMean (trailingWin 3 [0, 1, 2] 2) * 100) :=
  ⟨by norm_num, by norm_num, bollinger_percent_width [0, 1, 2] 3 1 2 (by norm_num) (by norm_num)⟩

/-! ### Claim C10 -/

/-- C10: the VIX entry of the model-selection menu is recognized by the
dispatch, but its branch calls `calculate_vix`, a name defined nowhere in
the program, so selecting VIX always fails with a Python NameError and can
never produce a volatility series. -/
theorem vix_branch_name_error (bars : List Bar) (w : Nat) (mult : ℝ) :
    "VIX" ∈ recognizedModels ∧
    get_sp500_volatility bars "VIX" w mult = Except.error (.nameError "calculate_vix") :=
  ⟨by decide, rfl⟩
